import Mathlib

/-!
Verification of the RSS feed cache of `plone/app/rsstile/rss.py`.

Shallow embedding of the feed cache in `rss.py`.  Mutable attributes of a
`RSSFeed` object become fields of a Lean structure; methods become functions
from the pre-state (plus the inputs the Python code reads from the outside
world) to a result and a post-state.

Modelling decisions, all derived from the source:

* Wall-clock reads (`time.time() / 60`) are modelled by an explicit `now : ℤ`
  parameter.  The two or three reads that happen inside one `update()` call
  are taken at the same instant.  Clock values and the timeout are modelled
  as exact integers: the Python values are floats / ints, and the code only
  compares and adds them, so any linearly ordered additive domain of exact
  values captures the behaviour the claims are about.
* The feedparser collaborator is modelled by its observable output: a
  `FPResult` value, or a raised exception.  A call to `feedparser.parse`
  is passed in as `Except PyErr FPResult`.  Attribute accesses that can
  raise `AttributeError` in Python (`d.feed.title`, `d.feed.link`,
  `item.title`, `item.links`) are `Option`-valued fields; subscripting
  (`item.links[0]` raising `IndexError`, the href key lookup raising
  `KeyError`) is modelled by the corresponding error constructors.
* `DateTime(item.updated)` is modelled by the field
  `updated : Option (Option ℤ)`: `none` = no `updated` attribute,
  `some none` = present but raises `DateTimeError`, `some (some t)` =
  parses to time `t`.
* Exceptions escaping a method are modelled with `Except PyErr`; the state
  component of the result records the mutations performed before the raise,
  exactly as a Python exception would leave the object.
-/

set_option autoImplicit false

deriving instance DecidableEq for Except

/-- Python exception classes relevant to the control flow of `rss.py`. -/
inductive PyErr where
  | attributeError
  | keyError
  | indexError
  | other
  deriving DecidableEq, Repr

/-- One entry of `item.links` (a dict that may lack the key named href). -/
structure FPLink where
  href : Option String
  deriving DecidableEq, Repr

/-- The `d.feed` object of a feedparser result; `title` / `link` raise
`AttributeError` when absent, hence `Option`. -/
structure FPFeedMeta where
  title : Option String
  link : Option String
  deriving DecidableEq, Repr

/-- One entry of the item list of a feedparser result. -/
structure FPItem where
  title : Option String
  links : Option (List FPLink)
  description : Option String
  updated : Option (Option ℤ)
  deriving DecidableEq, Repr

/-- A parsed feedparser document: `bozo` flag, whether the
`bozo_exception` is an instance of `ACCEPTED_FEEDPARSER_EXCEPTIONS`,
the feed metadata and the item list. -/
structure FPResult where
  bozo : Nat
  bozoAccepted : Bool
  feed : FPFeedMeta
  items : List FPItem
  deriving DecidableEq, Repr

/-- The dict built by `RSSFeed._buildItemDict`. -/
structure ItemDict where
  title : String
  url : String
  summary : String
  updated : Option ℤ
  deriving DecidableEq, Repr

/-- The mutable state of an `RSSFeed` instance (`self.url`, `self.timeout`,
`self._items`, `self._title`, `self._siteurl`, `self._loaded`,
`self._failed`, `self._last_update_time_in_minutes`,
`self._last_update_time`). -/
structure RSSFeed where
  url : String
  timeout : ℤ
  items : List ItemDict
  title : String
  siteurl : String
  loaded : Bool
  failed : Bool
  lastUpdateTimeInMinutes : ℤ
  lastUpdateTime : Option ℤ
  deriving DecidableEq, Repr

/-- The class constant `RSSFeed.FAILURE_DELAY = 10` (minutes). -/
def FAILURE_DELAY : ℤ := 10

/-- The constructor of `RSSFeed`: `self.timeout = timeout or 100`
(Python `or` substitutes `100` exactly for falsy values, i.e. `0`). -/
def RSSFeed.init (url : String) (timeout : ℤ) : RSSFeed :=
  { url := url
    timeout := if timeout = 0 then 100 else timeout
    items := []
    title := ""
    siteurl := ""
    loaded := false
    failed := false
    lastUpdateTimeInMinutes := 0
    lastUpdateTime := none }

/-- Property `RSSFeed.update_failed`. -/
def RSSFeed.update_failed (s : RSSFeed) : Bool := s.failed

/-- Property `RSSFeed.ok`: `not self._failed and self._loaded`. -/
def RSSFeed.ok (s : RSSFeed) : Bool := !s.failed && s.loaded

/-- Property `RSSFeed.needs_update`:
`(self.last_update_time_in_minutes + self.timeout) < now`.
A pure function of the state and the clock; it mutates nothing. -/
def RSSFeed.needs_update (s : RSSFeed) (now : ℤ) : Bool :=
  decide (s.lastUpdateTimeInMinutes + s.timeout < now)

/-- Method `RSSFeed._buildItemDict`.  Evaluation order follows the
Python source: `item.links` (`AttributeError` when absent), `[0]`
(`IndexError` on an empty list), the href lookup (`KeyError` when
absent), then `item.title` (`AttributeError` when absent).  A malformed
`item.updated` (`DateTimeError`) is swallowed and the key dropped. -/
def buildItemDict (item : FPItem) : Except PyErr ItemDict :=
  match item.links with
  | none => Except.error PyErr.attributeError
  | some [] => Except.error PyErr.indexError
  | some (l :: _) =>
    match l.href with
    | none => Except.error PyErr.keyError
    | some link =>
      match item.title with
      | none => Except.error PyErr.attributeError
      | some t =>
        Except.ok
          { title := t
            url := link
            summary := item.description.getD ""
            updated :=
              match item.updated with
              | some (some u) => some u
              | _ => none }

/-- The item loop of `_retrieveFeed`: items whose construction raises
`AttributeError` or `KeyError` are skipped (`continue`); any other
exception aborts the loop.  Returns the list of appended dicts so far
together with the escaped exception, if any. -/
def buildItems : List FPItem → List ItemDict × Option PyErr
  | [] => ([], none)
  | it :: rest =>
    match buildItemDict it with
    | Except.ok idict =>
      let r := buildItems rest
      (idict :: r.1, r.2)
    | Except.error PyErr.attributeError => buildItems rest
    | Except.error PyErr.keyError => buildItems rest
    | Except.error e => ([], some e)

/-- Method `RSSFeed._retrieveFeed`.  Here `parse` is the behaviour of
`feedparser.parse(self.url)` at this call.  The first component is the
Python outcome (a returned boolean or an escaped exception); the second
is the post-state, including mutations performed before an exception. -/
def RSSFeed.retrieveFeed (s : RSSFeed) (now : ℤ)
    (parse : Except PyErr FPResult) : Except PyErr Bool × RSSFeed :=
  if s.url = "" then
    -- the final branch of the method: loaded and failed are set,
    -- the timestamps are NOT touched on this path
    (Except.ok false, { s with loaded := true, failed := true })
  else
    -- both timestamps are stamped before the parse is attempted
    let s1 : RSSFeed :=
      { s with lastUpdateTimeInMinutes := now, lastUpdateTime := some now }
    match parse with
    | Except.error e => (Except.error e, s1)
    | Except.ok d =>
      if d.bozo = 1 ∧ d.bozoAccepted = false then
        (Except.ok false, { s1 with loaded := true, failed := true })
      else
        match d.feed.title with
        | none => (Except.error PyErr.attributeError, s1)
        | some t =>
          match d.feed.link with
          | none => (Except.error PyErr.attributeError, { s1 with title := t })
          | some l =>
            -- the item list is emptied and then filled by the loop
            match buildItems d.items with
            | (its, some e) =>
              (Except.error e,
               { s1 with title := t, siteurl := l, items := its })
            | (its, none) =>
              (Except.ok true,
               { s1 with title := t, siteurl := l, items := its,
                         loaded := true, failed := false })

/-- Method `RSSFeed.update`.  The bare catch-all handler absorbs every
exception of the attempt: it sets `self._failed = True` and falls through
to return `self.ok`. -/
def RSSFeed.update (s : RSSFeed) (now : ℤ)
    (parse : Except PyErr FPResult) : Bool × RSSFeed :=
  if s.update_failed then
    if s.lastUpdateTimeInMinutes + FAILURE_DELAY < now then
      match s.retrieveFeed now parse with
      | (Except.ok b, s1) => (b, s1)
      | (Except.error _, s1) =>
        let s2 : RSSFeed := { s1 with failed := true }
        (s2.ok, s2)
    else
      (false, s)
  else if s.needs_update now then
    match s.retrieveFeed now parse with
    | (Except.ok b, s1) => (b, s1)
    | (Except.error _, s1) =>
      let s2 : RSSFeed := { s1 with failed := true }
      (s2.ok, s2)
  else
    (s.ok, s)

/-- The pattern scanned for by `feed_link`, as a character list. -/
def httpPat : List Char := "http://".data

/-- The replacement string of `feed_link`, as a character list. -/
def feedPat : List Char := "feed://".data

/-- Python string replacement of httpPat by feedPat: every non-overlapping
occurrence, scanned left to right, is replaced. -/
def replaceHttp : List Char → List Char
  | [] => []
  | c :: rest =>
    if httpPat.isPrefixOf (c :: rest) then
      feedPat ++ replaceHttp (rest.drop 6)
    else
      c :: replaceHttp rest
  termination_by s => s.length
  decreasing_by
    · simp only [List.length_drop, List.length_cons]
      omega
    · simp only [List.length_cons]
      omega

/-- Occurrence test: does httpPat occur as a contiguous substring? -/
def containsHttp : List Char → Bool
  | [] => false
  | c :: rest => httpPat.isPrefixOf (c :: rest) || containsHttp rest

/-- Property `RSSFeed.feed_link`.  A read-only accessor: it takes the state
and returns a string, mutating nothing. -/
def RSSFeed.feed_link (s : RSSFeed) : String :=
  String.mk (replaceHttp s.url.data)

/-- The module-level dict `FEED_DATA`, keyed by URL. -/
abbrev FeedData := List (String × RSSFeed)

/-- Dict lookup, as used by the get of `FEED_DATA` with default `None`. -/
def lookupFeed : FeedData → String → Option RSSFeed
  | [], _ => none
  | (k, f) :: rest, u => if k = u then some f else lookupFeed rest u

/-- Method `RSSTile._getFeed`: get-or-create on `FEED_DATA`; a newly created
feed is constructed with the url and timeout of this call and stored. -/
def getFeed (reg : FeedData) (url : String) (timeout : ℤ) :
    RSSFeed × FeedData :=
  match lookupFeed reg url with
  | some f => (f, reg)
  | none =>
    let f := RSSFeed.init url timeout
    (f, (url, f) :: reg)

/-- A well-formed parse result that makes a fetch succeed. -/
def docOK : FPResult :=
  { bozo := 0, bozoAccepted := true,
    feed := { title := some "T", link := some "L" }, items := [] }

/-- An entry that has already failed, with timestamp zero. -/
def failedFeed : RSSFeed :=
  { RSSFeed.init "u" 100 with failed := true, loaded := true }

/-- A loaded entry with an empty URL, used as a fixture. -/
def loadedEmptyFeed : RSSFeed := { RSSFeed.init "" 5 with loaded := true }

/-- An already-loaded entry holding earlier data, used as a fixture. -/
def staleFeed : RSSFeed :=
  { RSSFeed.init "u" 100 with
      title := "old"
      siteurl := "olds"
      loaded := true }

/-- A non-bozo parse result whose feed lacks a site link: reading
`d.feed.link` raises `AttributeError` after `self._title` was already
assigned. -/
def docNoLink : FPResult :=
  { bozo := 0, bozoAccepted := false,
    feed := { title := some "T", link := none }, items := [] }

/-- A bozo parse result rejected by the allowlist. -/
def docBozo : FPResult :=
  { bozo := 1, bozoAccepted := false,
    feed := { title := none, link := none }, items := [] }

/-- The state `staleFeed` reaches after a rejected-bozo attempt at
time 200. -/
def staleBozoPost : RSSFeed :=
  { staleFeed with
      lastUpdateTimeInMinutes := 200
      lastUpdateTime := some 200
      loaded := true
      failed := true }

/-- The items of a feed that survive `_buildItemDict`, in order. -/
def goodItems (l : List FPItem) : List ItemDict :=
  l.filterMap (fun it => (buildItemDict it).toOption)

/-- An item whose construction either succeeds or raises one of the two
exception classes the loop catches (`AttributeError`, `KeyError`) — i.e.
anything except the uncaught `IndexError` of `item.links[0]` on an empty
links list (and the catch-all constructor). -/
def skipOrBuilds (it : FPItem) : Prop :=
  buildItemDict it ≠ Except.error PyErr.indexError ∧
  buildItemDict it ≠ Except.error PyErr.other

instance (it : FPItem) : Decidable (skipOrBuilds it) := by
  unfold skipOrBuilds
  infer_instance

/-- A feed item with a title, one link and a summary. -/
def fpGoodItemA : FPItem :=
  { title := some "A", links := some [{ href := some "http://a" }],
    description := some "sa", updated := none }

/-- A feed item lacking the `links` attribute entirely: `item.links` raises
`AttributeError`, which the loop catches. -/
def fpNoLinksItem : FPItem :=
  { title := some "B", links := none, description := none, updated := none }

/-- A feed item whose `links` attribute is present but an empty list:
`item.links[0]` raises `IndexError`, which the loop does not catch. -/
def fpEmptyLinksItem : FPItem :=
  { title := some "B", links := some [], description := none,
    updated := none }

/-- A second well-formed feed item. -/
def fpGoodItemC : FPItem :=
  { title := some "C", links := some [{ href := some "http://c" }],
    description := none, updated := some (some 5) }

/-- Three entries, the middle one lacking the `links` attribute. -/
def docThree : FPResult :=
  { bozo := 0, bozoAccepted := false,
    feed := { title := some "T", link := some "L" },
    items := [fpGoodItemA, fpNoLinksItem, fpGoodItemC] }

/-- Three entries, the middle one carrying an empty links list. -/
def docEmptyLinks : FPResult :=
  { bozo := 0, bozoAccepted := false,
    feed := { title := some "T", link := some "L" },
    items := [fpGoodItemA, fpEmptyLinksItem, fpGoodItemC] }

/-- When `_retrieveFeed` returns normally (no exception), the returned
boolean determines the flags: `loaded` is set and `failed = !b`. -/
theorem retrieve_flags (s : RSSFeed) (now : ℤ) (parse : Except PyErr FPResult)
    (b : Bool) (s1 : RSSFeed)
    (h : s.retrieveFeed now parse = (Except.ok b, s1)) :
    s1.loaded = true ∧ s1.failed = !b := by
  unfold RSSFeed.retrieveFeed at h
  split at h
  all_goals try split at h
  all_goals try split at h
  all_goals try split at h
  all_goals try split at h
  all_goals try split at h
  all_goals
    simp only [Prod.mk.injEq] at h
  all_goals
    obtain ⟨h1, h2⟩ := h
  all_goals
    subst h2
  all_goals
    simp_all

/-- A normal return of `_retrieveFeed` equals the `ok` of the post-state. -/
theorem retrieve_ret_eq_ok (s : RSSFeed) (now : ℤ) (parse : Except PyErr FPResult)
    (b : Bool) (s1 : RSSFeed)
    (h : s.retrieveFeed now parse = (Except.ok b, s1)) : b = s1.ok := by
  obtain ⟨hl, hf⟩ := retrieve_flags s now parse b s1 h
  cases b <;> simp [RSSFeed.ok, hl, hf]

/-- With a nonempty URL, `_retrieveFeed` stamps both timestamps to `now`
first, whatever happens later in the attempt. -/
theorem retrieve_stamp (s : RSSFeed) (now : ℤ) (parse : Except PyErr FPResult)
    (h : s.url ≠ "") :
    ((s.retrieveFeed now parse).2.lastUpdateTimeInMinutes = now ∧
     (s.retrieveFeed now parse).2.lastUpdateTime = some now) := by
  unfold RSSFeed.retrieveFeed
  split
  · exact absurd (by assumption) h
  · split
    · simp
    · split
      · simp
      · split
        · simp
        · split
          · simp
          · split <;> simp

/-- With an empty URL, `_retrieveFeed` only sets the two flags. -/
theorem retrieve_empty_url (s : RSSFeed) (now : ℤ) (parse : Except PyErr FPResult)
    (h : s.url = "") :
    s.retrieveFeed now parse =
      (Except.ok false, { s with loaded := true, failed := true }) := by
  unfold RSSFeed.retrieveFeed
  simp [h]

/-- A false return of `_retrieveFeed` leaves `items`, `title`, `siteurl`
untouched (it happens on the empty-URL and rejected-bozo paths only). -/
theorem retrieve_false_frame (s : RSSFeed) (now : ℤ) (parse : Except PyErr FPResult)
    (s1 : RSSFeed)
    (h : s.retrieveFeed now parse = (Except.ok false, s1)) :
    s1.items = s.items ∧ s1.title = s.title ∧ s1.siteurl = s.siteurl := by
  unfold RSSFeed.retrieveFeed at h
  split at h
  all_goals try split at h
  all_goals try split at h
  all_goals try split at h
  all_goals try split at h
  all_goals try split at h
  all_goals
    simp only [Prod.mk.injEq] at h
  all_goals
    obtain ⟨h1, h2⟩ := h
  all_goals
    subst h2
  all_goals
    simp_all

/-- A true return of `_retrieveFeed` installs the parsed feed title, site
link and item list as one group. -/
theorem retrieve_true_group (s : RSSFeed) (now : ℤ) (parse : Except PyErr FPResult)
    (s1 : RSSFeed)
    (h : s.retrieveFeed now parse = (Except.ok true, s1)) :
    ∃ d, parse = Except.ok d ∧ ∃ t l,
      d.feed.title = some t ∧ d.feed.link = some l ∧
      s1.title = t ∧ s1.siteurl = l ∧ s1.items = (buildItems d.items).1 := by
  unfold RSSFeed.retrieveFeed at h
  split at h
  · simp_all
  · split at h
    · simp_all
    · next d =>
      split at h
      · simp_all
      · split at h
        · simp_all
        · next t ht =>
          split at h
          · simp_all
          · next l hl =>
            split at h
            · simp_all
            · next its hb =>
              refine ⟨d, rfl, t, l, ht, hl, ?_⟩
              simp only [Prod.mk.injEq] at h
              obtain ⟨-, h2⟩ := h
              subst h2
              simp [hb]

/-- The `loaded` flag is never reset by `_retrieveFeed`. -/
theorem retrieve_loaded_mono (s : RSSFeed) (now : ℤ) (parse : Except PyErr FPResult)
    (h : s.loaded = true) : (s.retrieveFeed now parse).2.loaded = true := by
  unfold RSSFeed.retrieveFeed
  split
  · simp
  · split
    · simp [h]
    · split
      · simp
      · split
        · simp [h]
        · split
          · simp [h]
          · split <;> simp [h]

/-- When no occurrence of httpPat is present, the replacement is the
identity. -/
theorem replaceHttp_no_occurrence (l : List Char) (h : containsHttp l = false) :
    replaceHttp l = l := by
  induction l with
  | nil => rw [replaceHttp]
  | cons c tl ih =>
    rw [containsHttp] at h
    simp only [Bool.or_eq_false_iff] at h
    rw [replaceHttp, if_neg (by simp [h.1]), ih h.2]

/-- Replacement pulls off a leading httpPat and substitutes feedPat. -/
theorem replaceHttp_append_pat (rest : List Char) :
    replaceHttp (httpPat ++ rest) = feedPat ++ replaceHttp rest := by
  show replaceHttp ('h' :: 't' :: 't' :: 'p' :: ':' :: '/' :: '/' :: rest) = _
  rw [replaceHttp, if_pos (by simp [httpPat, List.isPrefixOf])]
  simp

/-- When every item is constructible or skippable, the loop appends exactly
the constructible ones and no exception escapes. -/
theorem buildItems_skips (l : List FPItem) (h : ∀ it ∈ l, skipOrBuilds it) :
    buildItems l = (goodItems l, none) := by
  induction l with
  | nil => rfl
  | cons it rest ih =>
    have h1 := h it (List.mem_cons_self it rest)
    have h2 : ∀ x ∈ rest, skipOrBuilds x :=
      fun x hx => h x (List.mem_cons_of_mem it hx)
    obtain ⟨hn1, hn2⟩ := h1
    cases hb : buildItemDict it with
    | ok d0 =>
      simp [buildItems, hb, ih h2, goodItems, List.filterMap_cons,
        Except.toOption]
    | error e =>
      cases e with
      | attributeError =>
        simp [buildItems, hb, ih h2, goodItems, List.filterMap_cons,
          Except.toOption]
      | keyError =>
        simp [buildItems, hb, ih h2, goodItems, List.filterMap_cons,
          Except.toOption]
      | indexError => exact absurd hb hn1
      | other => exact absurd hb hn2

/-- Claim C1.  For every entry state and every fetch outcome (success, parse
failure, empty URL, or an exception raised anywhere during the attempt),
`update()` never raises — in the embedding it is a total function into
`Bool × RSSFeed`, every exception of the attempt being absorbed by the
bare catch-all handler — and the boolean it returns equals the
post-update value of `ok`. -/
theorem update_returns_post_ok (s : RSSFeed) (now : ℤ)
    (parse : Except PyErr FPResult) :
    (s.update now parse).1 = (s.update now parse).2.ok := by
  unfold RSSFeed.update
  split
  · split
    · split
      next b s1 heq => exact retrieve_ret_eq_ok s now parse b s1 heq
      next e s1 heq => simp [RSSFeed.ok]
    · next hf hd =>
      simp only [RSSFeed.update_failed] at hf
      simp [RSSFeed.ok, hf]
  · split
    · split
      next b s1 heq => exact retrieve_ret_eq_ok s now parse b s1 heq
      next e s1 heq => simp [RSSFeed.ok]
    · rfl

/-- Claim C2, counterexample.  The claim says a fetch attempt that does not
succeed leaves `items`, `title`, `siteUrl` exactly as they were, "not
even partially" mutated, exceptions included.  On an entry holding
`title = "old"`, an attempt whose parse result lacks a site link fails
(`update()` returns false, `failed = true`), yet the post-state has
`title = "T"`: the exception was raised between the `_title` and
`_siteurl` assignments, leaving a partial update. -/
theorem group_partial_mutation_counterexample :
    (staleFeed.update 200 (Except.ok docNoLink)).1 = false ∧
    (staleFeed.update 200 (Except.ok docNoLink)).2.failed = true ∧
    staleFeed.title = "old" ∧
    (staleFeed.update 200 (Except.ok docNoLink)).2.title = "T" ∧
    (staleFeed.update 200 (Except.ok docNoLink)).2.siteurl = staleFeed.siteurl := by
  decide

/-- Claim C2, amended.  For every fetch attempt that completes without an
exception: on success (a true return) the three fields `items`, `title`,
`siteUrl` are replaced together as one group from the parse result, and
on failure (a false return: parse rejected as bozo, or empty URL) all
three are left exactly as they were before the attempt.  An attempt
aborted by an exception (caught in `update()`) may instead leave a
partial update of the group. -/
theorem fetch_group_replacement (s : RSSFeed) (now : ℤ)
    (parse : Except PyErr FPResult) (b : Bool) (s1 : RSSFeed)
    (h : s.retrieveFeed now parse = (Except.ok b, s1)) :
    (b = false →
      s1.items = s.items ∧ s1.title = s.title ∧ s1.siteurl = s.siteurl) ∧
    (b = true →
      ∃ d, parse = Except.ok d ∧ ∃ t l,
        d.feed.title = some t ∧ d.feed.link = some l ∧
        s1.title = t ∧ s1.siteurl = l ∧ s1.items = (buildItems d.items).1) := by
  constructor
  · intro hb
    subst hb
    exact retrieve_false_frame s now parse s1 h
  · intro hb
    subst hb
    exact retrieve_true_group s now parse s1 h

/-- Witness for `fetch_group_replacement`: a rejected-bozo attempt on
`staleFeed` returns false and leaves the three data fields exactly as
they were. -/
theorem fetch_group_replacement_witness :
    staleBozoPost.items = staleFeed.items ∧
    staleBozoPost.title = staleFeed.title ∧
    staleBozoPost.siteurl = staleFeed.siteurl :=
  (fetch_group_replacement staleFeed 200 (Except.ok docBozo) false
    staleBozoPost (by decide)).1 rfl

/-- Claim C3, counterexample.  The claim says the empty-URL case updates
both timestamps.  On a fresh entry with an empty URL, `_retrieveFeed` at
`now = 200` completes an attempt treated as a genuine failure
(`loaded = true`, `failed = true`, returns false), yet both timestamps
keep their pre-attempt values (`0` and absent): the stamping statements
sit inside the nonempty-URL branch only. -/
theorem empty_url_timestamps_counterexample :
    ((RSSFeed.init "" 100).retrieveFeed 200 (Except.ok docOK)).1 =
        Except.ok false ∧
    ((RSSFeed.init "" 100).retrieveFeed 200 (Except.ok docOK)).2.loaded = true ∧
    ((RSSFeed.init "" 100).retrieveFeed 200 (Except.ok docOK)).2.failed = true ∧
    ((RSSFeed.init "" 100).retrieveFeed 200
        (Except.ok docOK)).2.lastUpdateTimeInMinutes = 0 ∧
    ((RSSFeed.init "" 100).retrieveFeed 200 (Except.ok docOK)).2.lastUpdateTime =
        none := by
  decide

/-- Claim C3, amended.  On every fetch attempt with a nonempty URL — success
or failure — both timestamps are set to the current time at the start of
the attempt, before the outcome is known; on an empty-URL attempt (still
a genuine failure: `loaded = true`, `failed = true`, returns false) both
timestamps are left unchanged. -/
theorem timestamps_stamped_iff_nonempty_url (s : RSSFeed) (now : ℤ)
    (parse : Except PyErr FPResult) :
    (s.url ≠ "" →
      (s.retrieveFeed now parse).2.lastUpdateTimeInMinutes = now ∧
      (s.retrieveFeed now parse).2.lastUpdateTime = some now) ∧
    (s.url = "" →
      (s.retrieveFeed now parse).2.lastUpdateTimeInMinutes =
          s.lastUpdateTimeInMinutes ∧
      (s.retrieveFeed now parse).2.lastUpdateTime = s.lastUpdateTime ∧
      s.retrieveFeed now parse =
        (Except.ok false, { s with loaded := true, failed := true })) := by
  constructor
  · intro h
    exact retrieve_stamp s now parse h
  · intro h
    rw [retrieve_empty_url s now parse h]
    exact ⟨rfl, rfl, rfl⟩

/-- Witness for `timestamps_stamped_iff_nonempty_url`: a nonempty-URL
attempt at `now = 50` stamps both timestamps; an empty-URL attempt leaves
the fresh zero timestamps of the entry alone. -/
theorem timestamps_stamped_iff_nonempty_url_witness :
    (((RSSFeed.init "u" 5).retrieveFeed 50
        (Except.ok docOK)).2.lastUpdateTimeInMinutes = 50 ∧
     ((RSSFeed.init "u" 5).retrieveFeed 50
        (Except.ok docOK)).2.lastUpdateTime = some 50) ∧
    (((RSSFeed.init "" 5).retrieveFeed 50
        (Except.ok docOK)).2.lastUpdateTimeInMinutes =
          (RSSFeed.init "" 5).lastUpdateTimeInMinutes) := by
  refine ⟨(timestamps_stamped_iff_nonempty_url (RSSFeed.init "u" 5) 50
      (Except.ok docOK)).1 (by decide), ?_⟩
  exact ((timestamps_stamped_iff_nonempty_url (RSSFeed.init "" 5) 50
      (Except.ok docOK)).2 rfl).1

/-- Claim C4, counterexample.  The claim says `needsUpdate()` is true when
exactly `refreshIntervalMinutes` have elapsed.  For a fresh entry
(timestamp `0`, interval `100`) at `now = 100` exactly `100` minutes have
elapsed, yet `needs_update` is false: the code uses a strict comparison. -/
theorem needs_update_boundary_counterexample :
    ¬(((RSSFeed.init "u" 100).needs_update 100) = true ↔
      (100 : ℤ) - (RSSFeed.init "u" 100).lastUpdateTimeInMinutes ≥
        (RSSFeed.init "u" 100).timeout) := by
  decide

/-- Claim C4, amended.  For every stored timestamp and every current time,
`needsUpdate()` returns true iff strictly more than
`refreshIntervalMinutes` have elapsed
(`now_minutes - lastUpdateTimeMinutes > refreshIntervalMinutes`); at
exactly `refreshIntervalMinutes` elapsed it returns false.  It is a pure
function of the current time and the stored state: it returns a boolean
and touches nothing. -/
theorem needs_update_iff_strict (s : RSSFeed) (now : ℤ) :
    s.needs_update now = true ↔
      now - s.lastUpdateTimeInMinutes > s.timeout := by
  unfold RSSFeed.needs_update
  rw [decide_eq_true_iff]
  omega

/-- Claim C5, counterexample.  The claim says a failed entry retries when at
least `FAILURE_DELAY = 10` minutes have elapsed.  With timestamp `0` and
`now = 10`, exactly `10` minutes have elapsed (so the elapsed time is at
least the delay), yet `update()` performs no fetch at all: it returns
false with the state — timestamps, flags and data — bit-for-bit
unchanged, because the code requires a strict comparison. -/
theorem failure_backoff_boundary_counterexample :
    (10 : ℤ) - failedFeed.lastUpdateTimeInMinutes ≥ FAILURE_DELAY ∧
    failedFeed.failed = true ∧
    failedFeed.update 10 (Except.ok docOK) = (false, failedFeed) := by
  decide

/-- Claim C5, amended.  For a currently failed entry, `update()` attempts a
retry iff strictly more than `FAILURE_DELAY` (10 minutes) has elapsed
since `lastUpdateTimeMinutes`.  When it does not retry
(`now - lastUpdateTimeMinutes ≤ FAILURE_DELAY`) it returns false without
performing any fetch, leaving every field of the entry — including both
timestamps — unchanged; when it does retry (and the URL is nonempty) the
attempt stamps `lastUpdateTimeMinutes` to `now`. -/
theorem failure_backoff_strict (s : RSSFeed) (now : ℤ)
    (parse : Except PyErr FPResult) (hf : s.failed = true) :
    (now - s.lastUpdateTimeInMinutes ≤ FAILURE_DELAY →
      s.update now parse = (false, s)) ∧
    (now - s.lastUpdateTimeInMinutes > FAILURE_DELAY → s.url ≠ "" →
      (s.update now parse).2.lastUpdateTimeInMinutes = now) := by
  constructor
  · intro hle
    unfold RSSFeed.update
    have hc : ¬(s.lastUpdateTimeInMinutes + FAILURE_DELAY < now) := by omega
    simp [RSSFeed.update_failed, hf, hc]
  · intro hgt hurl
    unfold RSSFeed.update
    have hc : s.lastUpdateTimeInMinutes + FAILURE_DELAY < now := by omega
    simp only [RSSFeed.update_failed, hf, if_true, hc, if_pos]
    have hstamp := retrieve_stamp s now parse hurl
    rcases hrf : s.retrieveFeed now parse with ⟨r, s1⟩
    rw [hrf] at hstamp
    cases r <;> simpa using hstamp.1

/-- Witness for `failure_backoff_strict`: at `now = 5` (5 minutes elapsed)
the failed entry is returned untouched; at `now = 20` (20 minutes
elapsed) the retry stamps the timestamp. -/
theorem failure_backoff_strict_witness :
    failedFeed.update 5 (Except.ok docOK) = (false, failedFeed) ∧
    (failedFeed.update 20 (Except.ok docOK)).2.lastUpdateTimeInMinutes = 20 :=
  ⟨(failure_backoff_strict failedFeed 5 (Except.ok docOK) rfl).1 (by decide),
   (failure_backoff_strict failedFeed 20 (Except.ok docOK) rfl).2 (by decide)
     (by decide)⟩

/-- Claim C6, counterexample.  The claim says any item whose construction
fails for want of a link is skipped with the fetch still succeeding.  On
a fresh entry, a fetch returning three entries whose middle item has a
present but empty links list — its link is absent, so its construction
fails, with `IndexError` — does not succeed: `update()` returns false
and marks the entry failed (and not loaded), because the loop only
catches `AttributeError` and `KeyError`. -/
theorem empty_links_aborts_fetch_counterexample :
    ((RSSFeed.init "u" 100).update 200 (Except.ok docEmptyLinks)).1 = false ∧
    ((RSSFeed.init "u" 100).update 200 (Except.ok docEmptyLinks)).2.failed =
      true ∧
    ((RSSFeed.init "u" 100).update 200 (Except.ok docEmptyLinks)).2.loaded =
      false := by
  decide

/-- Claim C6, amended.  During a fetch whose parse result is accepted
(nonempty URL, not rejected as bozo, feed title and link present), any
individual item whose construction fails with one of the exceptions the
loop catches — `AttributeError` (no `links` attribute, or no title) or
`KeyError` (a link dict without an href key) — is skipped and the fetch
still succeeds, yielding exactly the constructible items; an item whose
links list is present but empty instead raises an uncaught `IndexError`
that makes the whole fetch fail. -/
theorem missing_field_items_skipped (s : RSSFeed) (now : ℤ) (d : FPResult)
    (hurl : s.url ≠ "")
    (hbozo : ¬(d.bozo = 1 ∧ d.bozoAccepted = false))
    (t l : String) (ht : d.feed.title = some t) (hl : d.feed.link = some l)
    (hits : ∀ it ∈ d.items, skipOrBuilds it) :
    s.retrieveFeed now (Except.ok d) =
      (Except.ok true,
       { s with
           lastUpdateTimeInMinutes := now
           lastUpdateTime := some now
           title := t
           siteurl := l
           items := goodItems d.items
           loaded := true
           failed := false }) := by
  unfold RSSFeed.retrieveFeed
  rw [if_neg hurl]
  simp only [ht, hl, if_neg hbozo, buildItems_skips d.items hits]

/-- Witness for `missing_field_items_skipped` (Scenario C of the spec): a
fetch with 3 entries, one lacking a link, succeeds with `items` of length
2, `loaded = true`, `failed = false`. -/
theorem missing_field_items_skipped_witness :
    (RSSFeed.init "u" 5).retrieveFeed 50 (Except.ok docThree) =
      (Except.ok true,
       { RSSFeed.init "u" 5 with
           lastUpdateTimeInMinutes := 50
           lastUpdateTime := some 50
           title := "T"
           siteurl := "L"
           items := goodItems docThree.items
           loaded := true
           failed := false }) ∧
    (goodItems docThree.items).length = 2 :=
  ⟨missing_field_items_skipped (RSSFeed.init "u" 5) 50 docThree (by decide)
      (by decide) "T" "L" rfl rfl (by decide),
   by decide⟩

/-- Claim C7.  Calling the get-or-create of the registry twice with the same
URL returns the same entry and, on the second call, creates nothing and
changes nothing — the registry after the second call is the registry
after the first, whatever interval the second call supplies
(first-writer-wins). -/
theorem getFeed_second_call_noop (reg : FeedData)
    (url : String) (t1 t2 : ℤ) :
    getFeed ((getFeed reg url t1).2) url t2 = getFeed reg url t1 := by
  unfold getFeed
  cases h : lookupFeed reg url with
  | some f => simp [h]
  | none => simp [h, lookupFeed]

/-- Claim C8, counterexample.  The claim says a non-positive supplied
interval becomes `100`.  The idiom `timeout or 100` in Python only
replaces falsy values: the negative interval `-5` is truthy and is kept,
so a feed constructed with `-5` has `timeout = -5`, not `100`. -/
theorem negative_timeout_kept_counterexample :
    ¬(0 < (-5 : ℤ)) ∧ (RSSFeed.init "u" (-5)).timeout = -5 ∧
      (RSSFeed.init "u" (-5)).timeout ≠ 100 := by
  decide

/-- Claim C8, amended.  A newly constructed `FeedEntry` has
`refreshIntervalMinutes = 100` exactly when the caller supplied `0` (the
only falsy number); every non-zero supplied value — positive or negative —
is kept. -/
theorem timeout_default_iff_zero (url : String) (t : ℤ) :
    (0 < t → (RSSFeed.init url t).timeout = t) ∧
    (t = 0 → (RSSFeed.init url t).timeout = 100) ∧
    (t < 0 → (RSSFeed.init url t).timeout = t) := by
  refine ⟨fun h => ?_, fun h => ?_, fun h => ?_⟩ <;>
    simp [RSSFeed.init] <;> omega

/-- Witness for `timeout_default_iff_zero` at `t = 7`, `t = 0`, `t = -5`. -/
theorem timeout_default_iff_zero_witness :
    (RSSFeed.init "u" 7).timeout = 7 ∧
    (RSSFeed.init "u" 0).timeout = 100 ∧
    (RSSFeed.init "u" (-5)).timeout = -5 :=
  ⟨(timeout_default_iff_zero "u" 7).1 (by decide),
   (timeout_default_iff_zero "u" 0).2.1 rfl,
   (timeout_default_iff_zero "u" (-5)).2.2 (by decide)⟩

/-- Claim C9, counterexample.  The claim says only the leading occurrence is
rewritten and any later occurrence is left unchanged.  On the URL
`"http://a/?u=http://b"` the accessor returns
`"feed://a/?u=feed://b"` — the replacement rewrote the second, embedded
occurrence too — instead of the claimed `"feed://a/?u=http://b"`. -/
theorem feed_link_counterexample :
    (RSSFeed.init "http://a/?u=http://b" 5).feed_link =
        "feed://a/?u=feed://b" ∧
    (RSSFeed.init "http://a/?u=http://b" 5).feed_link ≠
        "feed://a/?u=http://b" := by
  constructor
  · show String.mk (replaceHttp (RSSFeed.init "http://a/?u=http://b" 5).url.data) = _
    simp [RSSFeed.init, replaceHttp, httpPat, feedPat, List.isPrefixOf]
  · intro h
    rw [show (RSSFeed.init "http://a/?u=http://b" 5).feed_link =
        String.mk (replaceHttp (RSSFeed.init "http://a/?u=http://b" 5).url.data)
      from rfl] at h
    simp [RSSFeed.init, replaceHttp, httpPat, feedPat, List.isPrefixOf] at h

/-- Claim C9, amended.  The derived-link accessor returns the URL with every
occurrence of the pattern replaced (Python string replacement).  In
particular, when the pattern occurs only as the prefix, the accessor
rewrites the prefix and leaves the rest of the string unchanged.  It is a
read-only accessor: a pure function of the state that mutates nothing and
is not consulted by the fetch logic. -/
theorem feed_link_prefix_rewrite (s : RSSFeed) (rest : List Char)
    (h1 : s.url.data = httpPat ++ rest) (h2 : containsHttp rest = false) :
    (s.feed_link).data = feedPat ++ rest := by
  show (String.mk (replaceHttp s.url.data)).data = _
  rw [h1, replaceHttp_append_pat, replaceHttp_no_occurrence rest h2]

/-- Witness for `feed_link_prefix_rewrite` on a URL whose pattern occurrence
is only the prefix. -/
theorem feed_link_prefix_rewrite_witness :
    ((RSSFeed.init "http://example.com/feed" 5).feed_link).data =
      feedPat ++ "example.com/feed".data :=
  feed_link_prefix_rewrite (RSSFeed.init "http://example.com/feed" 5)
    "example.com/feed".data (by decide) (by decide)

/-- Claim C10.  The `loaded` flag is monotone: it starts false at
construction, and once true no subsequent operation resets it — neither a
full `update()` nor a bare fetch attempt (`_retrieveFeed`) ever assigns
it false (and every accessor of the embedding is a pure projection that
mutates nothing). -/
theorem loaded_monotone :
    (∀ url t, (RSSFeed.init url t).loaded = false) ∧
    (∀ (s : RSSFeed) (now : ℤ) (parse : Except PyErr FPResult),
       s.loaded = true →
         (s.retrieveFeed now parse).2.loaded = true ∧
         (s.update now parse).2.loaded = true) := by
  refine ⟨fun url t => rfl, fun s now parse h => ⟨retrieve_loaded_mono s now parse h, ?_⟩⟩
  unfold RSSFeed.update
  split
  · split
    · rcases hrf : s.retrieveFeed now parse with ⟨r, s1⟩
      have h1 := retrieve_loaded_mono s now parse h
      rw [hrf] at h1
      cases r <;> simpa using h1
    · exact h
  · split
    · rcases hrf : s.retrieveFeed now parse with ⟨r, s1⟩
      have h1 := retrieve_loaded_mono s now parse h
      rw [hrf] at h1
      cases r <;> simpa using h1
    · exact h

/-- Witness for `loaded_monotone`: a loaded entry stays loaded through an
`update()` that fails (empty URL) and through a bare fetch. -/
theorem loaded_monotone_witness :
    (loadedEmptyFeed.retrieveFeed 50 (Except.ok docOK)).2.loaded = true ∧
    (loadedEmptyFeed.update 50 (Except.ok docOK)).2.loaded = true :=
  loaded_monotone.2 loadedEmptyFeed 50 (Except.ok docOK) rfl
